import Mathlib

/-!
# Verification of the nitric membrane invocation path

Shallow embedding of the nitric runtime's invocation path: the worker
pool, the gRPC FaaS trigger-stream adapter, the streaming worker
(single-flight request/response), the membrane composition root, the
"Unimplemented" stand-in types, and the Azure EventGrid event plugin.

Code present under `src/` (the gRPC `FaasServer.TriggerStream`, the
`UnimplementedWorker` and `UnimplementedGatewayPlugin` stand-ins, and
`EventGridEventService.Publish`) is embedded directly from source.
Components whose implementation is not in the excerpt (the process
worker pool, the streaming FaaS worker adapter, `membrane.New` and
`Membrane.Start`) are modelled from the specification, as marked in
their doc comments.
-/

namespace Nitric

/-- Error taxonomy for the worker pool (spec §7: `DuplicateWorker`,
`NoWorkersAvailable`). -/
inductive PoolError
  | duplicateWorker
  | noWorkersAvailable
deriving DecidableEq, Repr

/-- Modelled from the spec: the process worker pool (`worker.NewProcessPool`),
whose implementation is not in the excerpt (only its callers in
`faas_grpc.go` and the membrane tests are). A mutable set of registered
workers (identity is reference-based, modelled as a `Nat` id) together
with a round-robin cursor for pools holding more than one worker. -/
structure WorkerPool where
  workers : List Nat
  rrIndex : Nat
deriving DecidableEq, Repr

/-- The freshly created, empty pool. -/
def emptyPool : WorkerPool := { workers := [], rrIndex := 0 }

/-- Modelled from the spec: `AddWorker(worker)` inserts a worker and fails
with `DuplicateWorker` if the same worker identity is already present. -/
def AddWorker (p : WorkerPool) (w : Nat) : Except PoolError WorkerPool :=
  if w ∈ p.workers then Except.error PoolError.duplicateWorker
  else Except.ok { p with workers := p.workers ++ [w] }

/-- Modelled from the spec: `RemoveWorker(worker)` removes if present and
always succeeds (idempotent removal; no error return). -/
def RemoveWorker (p : WorkerPool) (w : Nat) : WorkerPool :=
  { p with workers := p.workers.filter (fun x => x ≠ w) }

/-- Modelled from the spec: `GetWorker` returns one available worker.
Pools with a single worker return it directly; pools with multiple
workers round-robin; an empty pool fails with `NoWorkersAvailable`.
It is a total function: it never blocks waiting for a registration. -/
def GetWorker (p : WorkerPool) : Except PoolError (Nat × WorkerPool) :=
  match p.workers with
  | [] => Except.error PoolError.noWorkersAvailable
  | [w] => Except.ok (w, p)
  | w :: x :: rest =>
      Except.ok ((w :: x :: rest).get
          ⟨p.rrIndex % (w :: x :: rest).length,
           Nat.mod_lt _ (Nat.succ_pos _)⟩,
        { p with rrIndex := p.rrIndex + 1 })

/-- A single pool operation, for reasoning about arbitrary call sequences. -/
inductive PoolOp
  | add (w : Nat)
  | remove (w : Nat)
deriving DecidableEq, Repr

/-- Apply one operation; a failed `AddWorker` leaves the pool unchanged. -/
def applyOp (p : WorkerPool) : PoolOp → WorkerPool
  | PoolOp.add w =>
      match AddWorker p w with
      | Except.ok p' => p'
      | Except.error _ => p
  | PoolOp.remove w => RemoveWorker p w

/-- Run a sequence of pool operations from a starting pool. -/
def runOps (p : WorkerPool) (ops : List PoolOp) : WorkerPool :=
  ops.foldl applyOp p

theorem applyOp_nodup (p : WorkerPool) (op : PoolOp)
    (h : p.workers.Nodup) : (applyOp p op).workers.Nodup := by
  cases op with
  | add w =>
      by_cases hmem : w ∈ p.workers
      · simp [applyOp, AddWorker, hmem, h]
      · simp only [applyOp, AddWorker, if_neg hmem]
        rw [List.nodup_append]
        refine ⟨h, List.nodup_singleton w, ?_⟩
        intro a ha hb
        rw [List.mem_singleton] at hb
        exact hmem (hb ▸ ha)
  | remove w =>
      simpa [applyOp, RemoveWorker] using List.Nodup.filter _ h

theorem runOps_nodup (p : WorkerPool) (ops : List PoolOp)
    (h : p.workers.Nodup) : (runOps p ops).workers.Nodup := by
  induction ops generalizing p with
  | nil => simpa [runOps] using h
  | cons op rest ih =>
      simpa [runOps] using ih (applyOp p op) (applyOp_nodup p op h)

/-! ## Trigger model (spec §3, §4.1) -/

/-- Canonical HTTP-shaped trigger (`triggers.HttpRequest`): method, path,
query parameters, headers (name to ordered sequence of values), body
bytes (modelled as a list of byte values). -/
structure HttpRequest where
  method : String
  path : String
  query : List (String × String)
  header : List (String × List String)
  body : List Nat
deriving DecidableEq, Repr

/-- Canonical HTTP response (`triggers.HttpResponse`): status code,
multi-valued headers, body bytes. -/
structure HttpResponse where
  statusCode : Nat
  header : List (String × List String)
  body : List Nat
deriving DecidableEq, Repr

/-- Canonical event-shaped trigger (`triggers.Event`): topic, payload
bytes, payload content-type, per-delivery request identifier. -/
structure Event where
  topic : String
  payload : List Nat
  contentType : String
  requestId : String
deriving DecidableEq, Repr

/-! ## Streaming protocol adapter (spec §4.3, §6)

The `FaasWorker` implementation is not in the excerpt (only its caller,
`FaasServer.TriggerStream`, is), so the adapter is modelled from the
spec: wire messages carry the trigger fields, single-flight is enforced
by a busy flag, and a transport failure while a request is outstanding
fails that request with `StreamError`. -/

/-- Wire "invocation init" message for an HTTP-shaped trigger
(spec §6: method/path/headers/body sent core→function). -/
structure WireHttpTrigger where
  method : String
  path : String
  query : List (String × String)
  headers : List (String × List String)
  body : List Nat
deriving DecidableEq, Repr

/-- Wire "invocation response" message for an HTTP-shaped reply
(spec §6: status/headers/body sent function→core). -/
structure WireHttpReply where
  status : Nat
  headers : List (String × List String)
  body : List Nat
deriving DecidableEq, Repr

/-- Modelled from the spec: `ToCanonical`-inverse serialization performed
by the adapter when writing an invocation init message to the stream. -/
def toWire (req : HttpRequest) : WireHttpTrigger :=
  { method := req.method
    path := req.path
    query := req.query
    headers := req.header
    body := req.body }

/-- Modelled from the spec: `FromCanonical` on the reply side — the
adapter converts a wire reply into the canonical `HttpResponse`,
preserving header multiplicity and body bytes exactly. -/
def fromWire (rep : WireHttpReply) : HttpResponse :=
  { statusCode := rep.status
    header := rep.headers
    body := rep.body }

/-- A worker function process that echoes status 200 with the request's
body and sends the header list `hdrs` of its own choosing. -/
def echoWorker (hdrs : List (String × List String)) (t : WireHttpTrigger) :
    WireHttpReply :=
  { status := 200, headers := hdrs, body := t.body }

/-- One full `HandleHttpRequest` round trip through the adapter against a
worker process `proc` computing the wire reply. -/
def roundTrip (proc : WireHttpTrigger → WireHttpReply) (req : HttpRequest) :
    HttpResponse :=
  fromWire (proc (toWire req))

/-- What the adapter observes next on its stream while a request is
outstanding: a correlated reply, a clean close, or a transport failure. -/
inductive StreamSignal
  | reply (rep : WireHttpReply)
  | closed
  | failed (msg : String)
deriving DecidableEq, Repr

/-- Adapter-side error taxonomy: `StreamError` for a transport failure
mid-request, and the rejection of a second in-flight request. -/
inductive AdapterError
  | streamError
  | secondRequestRejected
deriving DecidableEq, Repr

/-- Modelled from the spec: the per-stream adapter state — the internal
busy flag held while awaiting the reply, and the pending request. -/
structure FaasWorkerState where
  busy : Bool
  pending : Option HttpRequest
deriving DecidableEq, Repr

/-- The adapter state of a freshly connected stream: idle. -/
def idleWorker : FaasWorkerState := { busy := false, pending := none }

/-- Modelled from the spec: the send half of `HandleHttpRequest` — if the
busy flag is held the second trigger is refused until the current reply
is read; otherwise the init message is written and the flag taken. -/
def startRequest (st : FaasWorkerState) (req : HttpRequest) :
    FaasWorkerState × Except AdapterError WireHttpTrigger :=
  if st.busy then (st, Except.error AdapterError.secondRequestRejected)
  else ({ busy := true, pending := some req }, Except.ok (toWire req))

/-- Modelled from the spec: the receive half of `HandleHttpRequest` — the
blocked read returns the correlated reply, or fails the pending request
with `StreamError` when the stream closes or errors; either way the busy
flag is released. -/
def finishRequest (_st : FaasWorkerState) (sig : StreamSignal) :
    FaasWorkerState × Except AdapterError HttpResponse :=
  match sig with
  | StreamSignal.reply rep => (idleWorker, Except.ok (fromWire rep))
  | StreamSignal.closed => (idleWorker, Except.error AdapterError.streamError)
  | StreamSignal.failed _ => (idleWorker, Except.error AdapterError.streamError)

/-! ## gRPC FaaS server (`src/pkg/adapters/grpc/faas_grpc.go`) -/

/-- Embedded from `FaasServer.TriggerStream`: create a worker for the new
stream, add it to the pool (returning the error if the add fails, which
cancels the stream), run its `Listen` loop until the error channel
delivers (abstracted as the terminal `signal` of the stream), then
remove the worker from the pool and return the delivered error. -/
def TriggerStream (pool : WorkerPool) (wrkr : Nat) (signal : StreamSignal) :
    WorkerPool × Except PoolError (Option String) :=
  match AddWorker pool wrkr with
  | Except.error e => (pool, Except.error e)
  | Except.ok p1 =>
      (RemoveWorker p1 wrkr,
       Except.ok (match signal with
         | StreamSignal.failed msg => some msg
         | _ => none))

/-! ## Membrane composition root (spec §4.5)

`membrane.New` and `Membrane.Start` are not in the excerpt — only their
tests (`membrane_test`) are — so both are modelled from the spec,
matching the behaviour the tests require. -/

/-- Membrane error taxonomy (spec §7). `missingGatewayPlugin` is the
`ConfigurationError` for an absent gateway; `configurationError` names
the other absent collaborator; `listenError` carries a bind-failure
message. -/
inductive MembraneError
  | missingGatewayPlugin
  | configurationError (collaborator : String)
  | listenError (msg : String)
deriving DecidableEq, Repr

/-- Modelled from the spec: `membrane.MembraneOptions` — the collaborator
plugins (presence modelled as `Option Unit`, `none` being the Go nil),
the tolerate-missing-services flag, and the service listen address. -/
structure MembraneOptions where
  gatewayPlugin : Option Unit
  documentPlugin : Option Unit
  eventsPlugin : Option Unit
  queuePlugin : Option Unit
  storagePlugin : Option Unit
  tolerateMissingServices : Bool
  serviceAddress : String
deriving DecidableEq, Repr

/-- The constructed membrane (what a successful `membrane.New` returns). -/
structure Membrane where
  serviceAddress : String
  tolerateMissingServices : Bool
deriving DecidableEq, Repr

/-- Modelled from the spec: `membrane.New` validates that required
collaborators are present unless tolerate-missing-services is set, and
fails with the missing-gateway configuration error if no gateway is
configured — the gateway is mandatory regardless of the flag. An
`Except.error` result is the Go pair of a nil membrane and the error. -/
def membraneNew (o : MembraneOptions) : Except MembraneError Membrane :=
  if o.gatewayPlugin = none then
    Except.error MembraneError.missingGatewayPlugin
  else if o.tolerateMissingServices = false ∧ o.documentPlugin = none then
    Except.error (MembraneError.configurationError "document")
  else if o.tolerateMissingServices = false ∧ o.eventsPlugin = none then
    Except.error (MembraneError.configurationError "events")
  else if o.tolerateMissingServices = false ∧ o.queuePlugin = none then
    Except.error (MembraneError.configurationError "queue")
  else if o.tolerateMissingServices = false ∧ o.storagePlugin = none then
    Except.error (MembraneError.configurationError "storage")
  else
    Except.ok { serviceAddress := o.serviceAddress
                tolerateMissingServices := o.tolerateMissingServices }

/-- Modelled from the spec: `Membrane.Start` first binds the configured
service address; binding fails when another listener already holds the
address (`bound` is the set of already-bound addresses), yielding
`ListenError` with a "Could not listen" message. The subsequent
supervisor and gateway startup is abstracted as `rest`, reached only
when the bind succeeds. -/
def membraneStart (m : Membrane) (bound : List String)
    (rest : Except MembraneError Unit) : Except MembraneError Unit :=
  if m.serviceAddress ∈ bound then
    Except.error (MembraneError.listenError
      ("Could not listen on " ++ m.serviceAddress))
  else rest

/-! ## "Unimplemented" stand-ins
(`src/pkg/plugins/gateway/plugin.go`, `src/unnamed/part_002`) -/

/-- A Go `error` value produced by `fmt.Errorf`. -/
inductive GoError
  | errorf (msg : String)
deriving DecidableEq, Repr

/-- A Go `*http.Response` as built by `UnimplementedWorker.HandleHttpRequest`:
status text, status code, and the bytes readable from `Body`. -/
structure GoHttpResponse where
  status : String
  statusCode : Nat
  body : String
deriving DecidableEq, Repr

/-- Outcome of a stand-in operation: either a Go error value or a plain
HTTP response (no error). -/
inductive StandInOutcome
  | err (e : GoError)
  | httpResp (r : GoHttpResponse)
deriving DecidableEq, Repr

/-- Embedded from `UnimplementedGatewayPlugin.Start`: returns
`fmt.Errorf("UNIMPLEMENTED")` for every pool argument. -/
def unimplementedGatewayStart (_pool : WorkerPool) : StandInOutcome :=
  StandInOutcome.err (GoError.errorf "UNIMPLEMENTED")

/-- Embedded from `UnimplementedGatewayPlugin.Stop`: returns
`fmt.Errorf("UNIMPLEMENTED")`. -/
def unimplementedGatewayStop : StandInOutcome :=
  StandInOutcome.err (GoError.errorf "UNIMPLEMENTED")

/-- Embedded from `UnimplementedWorker.HandleEvent`: returns
`fmt.Errorf("UNIMPLEMENTED")` for every trigger. -/
def unimplementedWorkerHandleEvent (_trigger : Event) : StandInOutcome :=
  StandInOutcome.err (GoError.errorf "UNIMPLEMENTED")

/-- Embedded from `UnimplementedWorker.HandleHttpRequest`: returns an
`*http.Response` with status text "Unimplemented", status code 501 and
body "HTTP Handler Unimplemented" — a response value, not a Go error. -/
def unimplementedWorkerHandleHttpRequest (_trigger : HttpRequest) :
    StandInOutcome :=
  StandInOutcome.httpResp
    { status := "Unimplemented"
      statusCode := 501
      body := "HTTP Handler Unimplemented" }

/-! ## Azure EventGrid event plugin (`src/unnamed/part_000`) -/

namespace EventGrid

/-- Nitric plugin error codes used by `Publish`
(`pkg/plugins/errors/codes`). -/
inductive ErrorCode
  | invalidArgument
  | internal
deriving DecidableEq, Repr

/-- A Go error as produced inside `Publish`: either a scoped plugin error
built by `errors.ErrorsWithScope` (scope, code, message, cause) or a
plain `fmt.Errorf` error propagated unwrapped. -/
inductive PublishError
  | scoped (scope : String) (code : ErrorCode) (msg : String) (cause : String)
  | plain (msg : String)
deriving DecidableEq, Repr

/-- The error code carried by a `Publish` error, when it is scoped. -/
def PublishError.code? : PublishError → Option ErrorCode
  | PublishError.scoped _ c _ _ => some c
  | PublishError.plain _ => none

/-- A `NitricEvent` (`events.NitricEvent`): id, payload type, payload. -/
structure NitricEvent where
  id : String
  payloadType : String
  payload : List (String × String)
deriving DecidableEq, Repr

/-- A management-API topic as returned by `ListBySubscription`:
name and endpoint URL. -/
structure TopicInfo where
  name : String
  endpoint : String
deriving DecidableEq, Repr

/-- The remote operations `Publish` can perform against Azure, recorded
in order so the absence of remote traffic is provable. -/
inductive RemoteCall
  | listTopics
  | publishEvents
deriving DecidableEq, Repr

/-- The environment of SDK behaviour `Publish` runs against: the topic
pages flattened to one list, an optional listing error, an optional
payload-marshalling error, and the `PublishEvents` outcome — either an
SDK error or an HTTP result with status code and status text. -/
structure SdkEnv where
  topics : List TopicInfo
  listErr : Option String
  marshalErr : Option String
  publishErr : Option String
  publishStatusCode : Nat
  publishStatus : String
deriving DecidableEq, Repr

/-- Go `strings.TrimPrefix`: remove `pre` from the front when present
(computed on the character data). -/
def goTrimFront (s pre : String) : String :=
  if pre.data.isPrefixOf s.data then
    String.mk (s.data.drop pre.data.length)
  else s

/-- Go `strings.TrimSuffix`: remove `suf` from the end when present
(computed on the character data). -/
def goTrimEnd (s suf : String) : String :=
  if suf.data.isSuffixOf s.data then
    String.mk (s.data.take (s.data.length - suf.data.length))
  else s

/-- Embedded from `EventGridEventService.getTopicEndpoint`: list topics
by subscription (propagating a listing error as a plain error), find the
topic with the requested name and return its endpoint stripped of the
`https://` scheme and the `/api/events` path, or fail with a plain
"topic with provided name could not be found" error. -/
def getTopicEndpoint (env : SdkEnv) (topicName : String) :
    Except String String :=
  match env.listErr with
  | some e => Except.error e
  | none =>
      match env.topics.find? (fun t => t.name == topicName) with
      | some t =>
          Except.ok (goTrimEnd (goTrimFront t.endpoint "https://") "/api/events")
      | none => Except.error "topic with provided name could not be found"

/-- Embedded from `EventGridEventService.Publish`: validate the topic and
event arguments, look up the topic endpoint, convert the event, publish
it, and reject non-2xx results. The returned pair is the Go error (or
`none` on success) together with the remote calls performed, in order. -/
def Publish (env : SdkEnv) (topic : String) (event : Option NitricEvent) :
    Option PublishError × List RemoteCall :=
  if topic.length = 0 then
    (some (PublishError.scoped "EventGrid.Publish" ErrorCode.invalidArgument
      "provided invalid topic" "non-blank topic is required"), [])
  else
    match event with
    | none =>
        (some (PublishError.scoped "EventGrid.Publish" ErrorCode.invalidArgument
          "provided invalid event" "non-nil event is required"), [])
    | some _ =>
        match getTopicEndpoint env topic with
        | Except.error msg => (some (PublishError.plain msg), [RemoteCall.listTopics])
        | Except.ok _topicHostName =>
            match env.marshalErr with
            | some m =>
                (some (PublishError.scoped "EventGrid.Publish" ErrorCode.internal
                  "error marshalling event" m), [RemoteCall.listTopics])
            | none =>
                match env.publishErr with
                | some m =>
                    (some (PublishError.scoped "EventGrid.Publish" ErrorCode.internal
                      "error publishing event" m),
                     [RemoteCall.listTopics, RemoteCall.publishEvents])
                | none =>
                    if env.publishStatusCode < 200 ∨ 300 ≤ env.publishStatusCode then
                      (some (PublishError.scoped "EventGrid.Publish" ErrorCode.internal
                        "returned non 200 status code" env.publishStatus),
                       [RemoteCall.listTopics, RemoteCall.publishEvents])
                    else (none, [RemoteCall.listTopics, RemoteCall.publishEvents])

end EventGrid

/-! ## Concrete sample data used by witnesses -/

/-- A sample HTTP request. -/
def reqA : HttpRequest :=
  { method := "GET", path := "/a", query := [], header := [("X", ["1"])],
    body := [104, 105] }

/-- A second sample HTTP request, distinct from `reqA`. -/
def reqB : HttpRequest :=
  { method := "POST", path := "/b", query := [], header := [],
    body := [111] }

/-! ## Theorems -/

/-- `GetWorker` only ever returns a currently-registered worker. -/
theorem getWorker_mem (p : WorkerPool) (w' : Nat) (q : WorkerPool)
    (h : GetWorker p = Except.ok (w', q)) : w' ∈ p.workers := by
  unfold GetWorker at h
  split at h
  · exact absurd h (by simp)
  · next w hw =>
      rw [hw]
      simp only [Except.ok.injEq, Prod.mk.injEq] at h
      rw [← h.1]
      exact List.mem_singleton_self w
  · next w x rest hw =>
      rw [hw]
      simp only [Except.ok.injEq, Prod.mk.injEq] at h
      rw [← h.1]
      exact List.get_mem _ _ _

/-- C1: for a worker pool containing exactly one worker, every
`GetWorker` call returns that worker; after that worker is removed (pool
empty), every `GetWorker` call fails with `NoWorkersAvailable` — and it
does so by returning the error from a total function, never blocking. -/
theorem getWorker_single_then_empty (p : WorkerPool) (w : Nat)
    (h : p.workers = [w]) :
    GetWorker p = Except.ok (w, p)
    ∧ (RemoveWorker p w).workers = []
    ∧ GetWorker (RemoveWorker p w) =
        Except.error PoolError.noWorkersAvailable := by
  have hrem : (RemoveWorker p w).workers = [] := by
    simp [RemoveWorker, h]
  refine ⟨?_, hrem, ?_⟩
  · unfold GetWorker
    split
    · next hw => rw [h] at hw; exact absurd hw (by simp)
    · next w' hw =>
        rw [h] at hw
        simp only [List.cons.injEq, and_true] at hw
        rw [hw]
    · next w' x rest hw => rw [h] at hw; simp at hw
  · unfold GetWorker
    split
    · rfl
    · next w' hw => rw [hrem] at hw; exact absurd hw (by simp)
    · next w' x rest hw => rw [hrem] at hw; exact absurd hw (by simp)

/-- C1 witness: concrete one-worker pool. -/
theorem getWorker_single_then_empty_witness :
    GetWorker { workers := [5], rrIndex := 0 } =
        Except.ok (5, { workers := [5], rrIndex := 0 })
    ∧ (RemoveWorker { workers := [5], rrIndex := 0 } 5).workers = []
    ∧ GetWorker (RemoveWorker { workers := [5], rrIndex := 0 } 5) =
        Except.error PoolError.noWorkersAvailable :=
  getWorker_single_then_empty { workers := [5], rrIndex := 0 } 5 rfl

/-- C2: for every sequence of `AddWorker`/`RemoveWorker` operations from
the empty pool, the pool never contains the same worker identity twice;
`AddWorker` fails with `DuplicateWorker` when the identity is already
present, and `RemoveWorker` of an absent worker is a successful no-op. -/
theorem pool_never_duplicates (ops : List PoolOp) (p : WorkerPool) (w : Nat) :
    (runOps emptyPool ops).workers.Nodup
    ∧ (w ∈ p.workers →
        AddWorker p w = Except.error PoolError.duplicateWorker)
    ∧ (w ∉ p.workers → RemoveWorker p w = p) := by
  refine ⟨runOps_nodup _ _ (by simp [emptyPool]), ?_, ?_⟩
  · intro hmem
    simp [AddWorker, hmem]
  · intro hmem
    have hf : p.workers.filter (fun x => x ≠ w) = p.workers := by
      rw [List.filter_eq_self]
      intro a ha
      simp only [ne_eq, decide_eq_true_eq]
      exact fun hw => hmem (hw ▸ ha)
    show ({ p with workers := p.workers.filter (fun x => x ≠ w) } : WorkerPool) = p
    rw [hf]

/-- C2 witness: a duplicate add fails and an absent removal is a no-op on
a concrete pool. -/
theorem pool_never_duplicates_witness :
    AddWorker { workers := [3], rrIndex := 0 } 3 =
        Except.error PoolError.duplicateWorker
    ∧ RemoveWorker { workers := [3], rrIndex := 0 } 7 =
        { workers := [3], rrIndex := 0 } :=
  ⟨(pool_never_duplicates [] { workers := [3], rrIndex := 0 } 3).2.1
      (by decide),
   (pool_never_duplicates [] { workers := [3], rrIndex := 0 } 7).2.2
      (by decide)⟩

/-- C3: whenever a worker's stream fails or closes (its `Listen` loop
delivers on the error channel, which only happens after `AddWorker`
succeeded), `TriggerStream` removes that worker from the pool, so a
subsequent `GetWorker` never returns it; and an in-flight
`HandleHttpRequest` on that worker returns `StreamError`. -/
theorem stream_end_removes_worker (pool p1 : WorkerPool) (wrkr : Nat)
    (sig : StreamSignal)
    (hAdd : AddWorker pool wrkr = Except.ok p1)
    (hterm : sig = StreamSignal.closed ∨ ∃ m, sig = StreamSignal.failed m) :
    wrkr ∉ (TriggerStream pool wrkr sig).1.workers
    ∧ (∀ w' q, GetWorker (TriggerStream pool wrkr sig).1 =
        Except.ok (w', q) → w' ≠ wrkr)
    ∧ (∀ req, (finishRequest { busy := true, pending := some req } sig).2 =
        Except.error AdapterError.streamError) := by
  have hpool : (TriggerStream pool wrkr sig).1 = RemoveWorker p1 wrkr := by
    simp [TriggerStream, hAdd]
  have hnotmem : wrkr ∉ (RemoveWorker p1 wrkr).workers := by
    simp [RemoveWorker]
  refine ⟨hpool ▸ hnotmem, ?_, ?_⟩
  · intro w' q hget heq
    rw [hpool] at hget
    have hmem : w' ∈ (RemoveWorker p1 wrkr).workers := getWorker_mem _ _ _ hget
    rw [heq] at hmem
    exact hnotmem hmem
  · intro req
    rcases hterm with h | ⟨m, h⟩ <;> simp [h, finishRequest]

/-- C3 witness: a concrete closed stream removes worker 0 from a
fresh pool and fails the in-flight request with `StreamError`. -/
theorem stream_end_removes_worker_witness :
    0 ∉ (TriggerStream emptyPool 0 StreamSignal.closed).1.workers
    ∧ (∀ w' q, GetWorker (TriggerStream emptyPool 0 StreamSignal.closed).1 =
        Except.ok (w', q) → w' ≠ 0)
    ∧ (∀ req,
        (finishRequest { busy := true, pending := some req }
          StreamSignal.closed).2 = Except.error AdapterError.streamError) :=
  stream_end_removes_worker emptyPool { workers := [0], rrIndex := 0 } 0
    StreamSignal.closed (by simp [AddWorker, emptyPool]) (Or.inl rfl)

/-- C4: round-trip through the streaming adapter — for any `HttpRequest`
sent via `HandleHttpRequest` to a worker that echoes status 200 with the
same body, the returned `HttpResponse` carries exactly the body bytes
and the header list the worker sent, multiplicity included. -/
theorem echo_roundtrip (req : HttpRequest)
    (hdrs : List (String × List String)) :
    (roundTrip (echoWorker hdrs) req).statusCode = 200
    ∧ (roundTrip (echoWorker hdrs) req).body = req.body
    ∧ (roundTrip (echoWorker hdrs) req).header = hdrs :=
  ⟨rfl, rfl, rfl⟩

/-- C5: single-flight per stream — a second `HandleHttpRequest` issued
while the busy flag is held is rejected with the adapter state (and the
pending first request) unchanged, and the reply that then arrives is
delivered to the first request's caller, never interchanged. -/
theorem single_flight_no_crosstalk (st : FaasWorkerState)
    (r1 r2 : HttpRequest) (rep : WireHttpReply)
    (hbusy : st.busy = true) (hpend : st.pending = some r1) :
    (startRequest st r2).2 = Except.error AdapterError.secondRequestRejected
    ∧ (startRequest st r2).1 = st
    ∧ (startRequest st r2).1.pending = some r1
    ∧ (finishRequest (startRequest st r2).1 (StreamSignal.reply rep)).2 =
        Except.ok (fromWire rep) := by
  refine ⟨?_, ?_, ?_, ?_⟩ <;> simp [startRequest, finishRequest, hbusy, hpend]

/-- C5 witness: concrete busy adapter rejects a concrete second request
and keeps the first pending. -/
theorem single_flight_no_crosstalk_witness :
    (startRequest { busy := true, pending := some reqA } reqB).2 =
        Except.error AdapterError.secondRequestRejected
    ∧ (startRequest { busy := true, pending := some reqA } reqB).1 =
        { busy := true, pending := some reqA }
    ∧ (startRequest { busy := true, pending := some reqA } reqB).1.pending =
        some reqA
    ∧ (finishRequest (startRequest { busy := true, pending := some reqA } reqB).1
        (StreamSignal.reply { status := 200, headers := [], body := [7] })).2 =
        Except.ok (fromWire { status := 200, headers := [], body := [7] }) :=
  single_flight_no_crosstalk { busy := true, pending := some reqA } reqA reqB
    { status := 200, headers := [], body := [7] } rfl rfl

/-- Sample options: only a gateway collaborator, tolerance enabled. -/
def onlyGatewayTol : MembraneOptions :=
  { gatewayPlugin := some (), documentPlugin := none, eventsPlugin := none,
    queuePlugin := none, storagePlugin := none,
    tolerateMissingServices := true, serviceAddress := ":50051" }

/-- Sample options: every collaborator present, tolerance disabled. -/
def allPluginsStrict : MembraneOptions :=
  { gatewayPlugin := some (), documentPlugin := some (),
    eventsPlugin := some (), queuePlugin := some (),
    storagePlugin := some (), tolerateMissingServices := false,
    serviceAddress := ":50051" }

/-- C6: for every configuration with no gateway collaborator,
`membrane.New` fails with the missing-gateway configuration error (an
`Except.error` result is the Go pair of a nil membrane and the error),
regardless of the other collaborators and of the tolerance flag. -/
theorem new_fails_without_gateway (o : MembraneOptions)
    (h : o.gatewayPlugin = none) :
    membraneNew o = Except.error MembraneError.missingGatewayPlugin := by
  simp [membraneNew, h]

/-- C6 witness: no gateway but every other collaborator present and
tolerance enabled still fails. -/
theorem new_fails_without_gateway_witness :
    membraneNew
      { gatewayPlugin := none, documentPlugin := some (),
        eventsPlugin := some (), queuePlugin := some (),
        storagePlugin := some (), tolerateMissingServices := true,
        serviceAddress := ":50051" } =
      Except.error MembraneError.missingGatewayPlugin :=
  new_fails_without_gateway _ rfl

/-- C7: with only a gateway collaborator configured, `membrane.New`
succeeds if and only if tolerate-missing-services is enabled; and with
every collaborator present it succeeds even with tolerance disabled. -/
theorem new_tolerance_iff (o : MembraneOptions)
    (hg : o.gatewayPlugin = some ())
    (hd : o.documentPlugin = none) (he : o.eventsPlugin = none)
    (hq : o.queuePlugin = none) (hs : o.storagePlugin = none) :
    ((∃ m, membraneNew o = Except.ok m) ↔ o.tolerateMissingServices = true)
    ∧ (∀ o' : MembraneOptions, o'.gatewayPlugin = some () →
        o'.documentPlugin = some () → o'.eventsPlugin = some () →
        o'.queuePlugin = some () → o'.storagePlugin = some () →
        ∃ m, membraneNew o' = Except.ok m) := by
  constructor
  · cases htol : o.tolerateMissingServices with
    | true =>
        simp only [iff_true]
        have hok : membraneNew o = Except.ok
            { serviceAddress := o.serviceAddress
              tolerateMissingServices := true } := by
          simp [membraneNew, hg, hd, he, hq, hs, htol]
        exact ⟨_, hok⟩
    | false =>
        simp only [Bool.false_eq_true, iff_false, not_exists]
        intro m
        simp [membraneNew, hg, hd, he, hq, hs, htol]
  · intro o' hg' hd' he' hq' hs'
    have hok : membraneNew o' = Except.ok
        { serviceAddress := o'.serviceAddress
          tolerateMissingServices := o'.tolerateMissingServices } := by
      simp [membraneNew, hg', hd', he', hq', hs']
    exact ⟨_, hok⟩

/-- C7 witness: gateway-only options with tolerance enabled succeed, and
all-collaborator options with tolerance disabled succeed. -/
theorem new_tolerance_iff_witness :
    (∃ m, membraneNew onlyGatewayTol = Except.ok m)
    ∧ (∃ m, membraneNew allPluginsStrict = Except.ok m) :=
  ⟨(new_tolerance_iff onlyGatewayTol rfl rfl rfl rfl rfl).1.mpr rfl,
   (new_tolerance_iff onlyGatewayTol rfl rfl rfl rfl rfl).2
      allPluginsStrict rfl rfl rfl rfl rfl⟩

/-- C8: when the configured service listen address is already bound by
another listener, `Membrane.Start` returns `ListenError` whose message
begins with the recognizable "Could not listen" indication, without
reaching the remaining startup steps. -/
theorem start_fails_on_bound_address (m : Membrane) (bound : List String)
    (rest : Except MembraneError Unit) (h : m.serviceAddress ∈ bound) :
    ∃ msg, membraneStart m bound rest =
        Except.error (MembraneError.listenError msg)
      ∧ ∃ tail, msg = "Could not listen" ++ tail := by
  refine ⟨"Could not listen on " ++ m.serviceAddress, ?_, " on " ++ m.serviceAddress, ?_⟩
  · simp [membraneStart, h]
  · have hlit : "Could not listen on " = "Could not listen" ++ " on " := rfl
    rw [hlit, String.append_assoc]

/-- C8 witness: the address of the test, `localhost:9005`, already bound. -/
theorem start_fails_on_bound_address_witness :
    ∃ msg, membraneStart
        { serviceAddress := "localhost:9005", tolerateMissingServices := true }
        ["localhost:9005"] (Except.ok ()) =
        Except.error (MembraneError.listenError msg)
      ∧ ∃ tail, msg = "Could not listen" ++ tail :=
  start_fails_on_bound_address
    { serviceAddress := "localhost:9005", tolerateMissingServices := true }
    ["localhost:9005"] (Except.ok ()) (by simp)

/-- A sample event trigger. -/
def evTrig : Event :=
  { topic := "t", payload := [1], contentType := "application/json",
    requestId := "r1" }

/-- C9 counterexample: the claim as stated is false —
`UnimplementedWorker.HandleHttpRequest` does not return an
`Unimplemented` error for its input; at the concrete request `reqA` it
returns a plain HTTP response value (status code 501), not an error. -/
theorem handleHttpRequest_returns_response_not_error :
    (¬ ∃ e, unimplementedWorkerHandleHttpRequest reqA = StandInOutcome.err e)
    ∧ unimplementedWorkerHandleHttpRequest reqA =
        StandInOutcome.httpResp
          { status := "Unimplemented", statusCode := 501,
            body := "HTTP Handler Unimplemented" } := by
  constructor
  · rintro ⟨e, h⟩
    simp [unimplementedWorkerHandleHttpRequest] at h
  · rfl

/-- C9 amended: `UnimplementedGatewayPlugin.Start` and `.Stop` and
`UnimplementedWorker.HandleEvent` each return the fixed
`fmt.Errorf("UNIMPLEMENTED")` error for every input, while
`UnimplementedWorker.HandleHttpRequest` instead returns a fixed HTTP
response with status text "Unimplemented", status code 501 and body
"HTTP Handler Unimplemented" — a response value, not an error. -/
theorem unimplemented_standins (pool : WorkerPool) (ev : Event)
    (req : HttpRequest) :
    unimplementedGatewayStart pool =
        StandInOutcome.err (GoError.errorf "UNIMPLEMENTED")
    ∧ unimplementedGatewayStop =
        StandInOutcome.err (GoError.errorf "UNIMPLEMENTED")
    ∧ unimplementedWorkerHandleEvent ev =
        StandInOutcome.err (GoError.errorf "UNIMPLEMENTED")
    ∧ unimplementedWorkerHandleHttpRequest req =
        StandInOutcome.httpResp
          { status := "Unimplemented", statusCode := 501,
            body := "HTTP Handler Unimplemented" } :=
  ⟨rfl, rfl, rfl, rfl⟩

/-- C10: `EventGridEventService.Publish` validates its inputs before any
remote operation — an empty topic or a nil event yields an
`InvalidArgument`-scoped error with no topic-endpoint lookup and no
publish call; and a publish result with a status code outside
`[200, 300)` yields an `Internal` error even though the SDK call itself
returned no error. -/
theorem publish_validates_then_checks_status (env : EventGrid.SdkEnv)
    (topic : String) (event : Option EventGrid.NitricEvent) :
    (topic.length = 0 → EventGrid.Publish env topic event =
        (some (EventGrid.PublishError.scoped "EventGrid.Publish"
          EventGrid.ErrorCode.invalidArgument "provided invalid topic"
          "non-blank topic is required"), []))
    ∧ (topic.length ≠ 0 → EventGrid.Publish env topic none =
        (some (EventGrid.PublishError.scoped "EventGrid.Publish"
          EventGrid.ErrorCode.invalidArgument "provided invalid event"
          "non-nil event is required"), []))
    ∧ (∀ ev host, topic.length ≠ 0 →
        EventGrid.getTopicEndpoint env topic = Except.ok host →
        env.marshalErr = none → env.publishErr = none →
        (env.publishStatusCode < 200 ∨ 300 ≤ env.publishStatusCode) →
        EventGrid.Publish env topic (some ev) =
          (some (EventGrid.PublishError.scoped "EventGrid.Publish"
            EventGrid.ErrorCode.internal "returned non 200 status code"
            env.publishStatus),
           [EventGrid.RemoteCall.listTopics,
            EventGrid.RemoteCall.publishEvents])) := by
  refine ⟨?_, ?_, ?_⟩
  · intro h
    simp [EventGrid.Publish, h]
  · intro h
    simp [EventGrid.Publish, h]
  · intro ev host hlen hend hm hp hstatus
    simp [EventGrid.Publish, hlen, hend, hm, hp, hstatus]

/-- A sample NitricEvent. -/
def evA : EventGrid.NitricEvent :=
  { id := "1", payloadType := "t", payload := [] }

/-- A sample SDK environment: one topic "orders" whose endpoint is a
full EventGrid URL, no SDK errors, and a publish result of HTTP 500. -/
def envA : EventGrid.SdkEnv :=
  { topics := [{ name := "orders"
                 endpoint := "https://orders.example.com/api/events" }]
    listErr := none
    marshalErr := none
    publishErr := none
    publishStatusCode := 500
    publishStatus := "500 Internal Server Error" }

/-- C10 witness: concrete environment where the topic resolves and the
publish call reports HTTP 500 with no SDK error, plus the two
validation rejections at concrete inputs. -/
theorem publish_validates_then_checks_status_witness :
    (EventGrid.Publish envA "" (some evA) =
      (some (EventGrid.PublishError.scoped "EventGrid.Publish"
        EventGrid.ErrorCode.invalidArgument "provided invalid topic"
        "non-blank topic is required"), []))
    ∧ (EventGrid.Publish envA "orders" none =
      (some (EventGrid.PublishError.scoped "EventGrid.Publish"
        EventGrid.ErrorCode.invalidArgument "provided invalid event"
        "non-nil event is required"), []))
    ∧ (EventGrid.Publish envA "orders" (some evA) =
      (some (EventGrid.PublishError.scoped "EventGrid.Publish"
        EventGrid.ErrorCode.internal "returned non 200 status code"
        "500 Internal Server Error"),
       [EventGrid.RemoteCall.listTopics, EventGrid.RemoteCall.publishEvents])) := by
  refine ⟨?_, ?_, ?_⟩
  · exact (publish_validates_then_checks_status envA "" (some evA)).1 rfl
  · exact (publish_validates_then_checks_status envA "orders" none).2.1
      (by decide)
  · exact (publish_validates_then_checks_status envA "orders" (some evA)).2.2
      evA "orders.example.com" (by decide) rfl rfl rfl
      (Or.inr (by decide))

end Nitric
